import Mathlib

/-!
Shallow embedding of `src/Net_monitor.py` (classes `NetMonitorApp` and
`DeviceMonitor`), restricted to the parts the claims are about: the per-device
monitoring cycle (`DeviceMonitor._monitor`, lines 378-415), the availability
buffer (lines 407-409), the loss-percentage display (lines 410-411, 357, 375),
the downtime state machine (lines 389-395, init at lines 329-336, read side at
line 437), the supervisor operations (`_add_device`, `_reset_all`,
`_schedule_auto_save`/`_save_log`) and the summary (`get_downtime_summary`,
`_show_summary`).  Timestamps (`datetime.now()`) are modelled as naturals,
`strftime` rendering as `toString`.
-/

namespace NetMonitor

/-- One element of `NetMonitorApp.full_log`: the source stores pairs
`(txt, tag)` where `tag` is `'error'` or `None` (lines 398-400). -/
structure LogEntry where
  text : String
  tag : Option String
deriving DecidableEq

/-- The three-element batch built for one probe at lines 398-400 of
`DeviceMonitor._monitor`: timestamp line, identity line, result line
(tagged `error` iff the probe was lost). -/
def logEntryBatch (tsText name ip : String) (lost : Bool) : List LogEntry :=
  [⟨"[" ++ tsText ++ "] ", none⟩,
   ⟨"Обмен с " ++ name ++ "[" ++ ip ++ "]\n", none⟩,
   if lost then ⟨"Ответ не получен\n", some "error"⟩ else ⟨"Ответ получен\n", none⟩]

/-- Lines 407-409 of `DeviceMonitor._monitor`:
`self.availability.append(status)` followed by
`if len(self.availability) > 720: self.availability.pop(0)`. -/
def pushSample (buf : List Nat) (status : Nat) : List Nat :=
  let b := buf ++ [status]
  if b.length > 720 then b.drop 1 else b

/-- Line 410: `loss_pct = (1 - sum(self.availability)/len(self.availability)) * 100`.
Only ever evaluated on a non-empty buffer in the source (the append at line 407
precedes it). -/
def loss_pct (buf : List Nat) : Rat :=
  (1 - (buf.sum : Rat) / (buf.length : Rat)) * 100

/-- Model of the 2-decimal rendering `f"{loss_pct:.2f}%"` at line 411:
round to the nearest hundredth (the tie-breaking of float formatting is
irrelevant to the claims, whose values are exact). -/
def format2 (q : Rat) : Rat :=
  ((round (q * 100) : Int) : Rat) / 100

/-- The loss percentage shown on the tile label: `0` for the empty buffer
(initial label at line 357, `reset` at line 375), otherwise the rounded
value of `loss_pct` (lines 410-411). -/
def lossDisplay (buf : List Nat) : Rat :=
  if buf = [] then 0 else format2 (loss_pct buf)

/-- The monitoring-relevant state of one `DeviceMonitor` together with the
shared log it writes into.  `downtime_summary` is an `Option` because
`DeviceMonitor.__init__` (lines 329-336) never creates that attribute: `none`
models the attribute being absent (so that reading it raises
`AttributeError`), `some l` models it holding the list `l`. -/
structure MonitorState where
  availability : List Nat
  is_down : Bool
  current_downtime_start : Option Nat
  downtime_summary : Option (List (Nat × Nat))
  lossLabel : Rat
  full_log : List LogEntry
  error_count : Nat
deriving DecidableEq

/-- The state right after `DeviceMonitor.__init__` (lines 329-336, label text
at line 357): empty availability history, not down, no open interval, and no
`downtime_summary` attribute at all. -/
def initMonitor : MonitorState :=
  { availability := []
    is_down := false
    current_downtime_start := none
    downtime_summary := none
    lossLabel := 0
    full_log := []
    error_count := 0 }

/-- The same initial state with the completed-interval list present and empty,
which is how `get_downtime_summary` reads the missing attribute
(`getattr(self, 'downtime_summary', [])`, line 437) and what the close at
line 394 assumes. -/
def initMonitorIntended : MonitorState :=
  { initMonitor with downtime_summary := some [] }

/-- Tail of a successful monitor cycle (lines 398-411): append the log batch,
push the sample into the availability buffer with FIFO eviction, and refresh
the displayed loss percentage from the new buffer. -/
def finishCycle (name ip : String) (st : MonitorState) (lost : Bool)
    (status : Nat) (ts : Nat) : MonitorState :=
  let buf := pushSample st.availability status
  { st with
    full_log := st.full_log ++ logEntryBatch (toString ts) name ip lost
    availability := buf
    lossLabel := format2 (loss_pct buf) }

/-- One iteration of the `while self.is_monitoring` loop of
`DeviceMonitor._monitor` (lines 380-415).  `probe = none` models
`subprocess.run` itself raising (claim C8): the `except` at line 414 logs the
error and nothing else happens.  `probe = some lost` gives the classified
result of the ping (line 384).  The close branch (lines 392-395) first sets
`is_down = False` (line 393) and then evaluates
`self...downtime_summary.append(...)` (line 394); when the attribute is
absent this raises `AttributeError`, caught at line 414, so neither
`current_downtime_start` nor the log nor the buffer is touched and only the
error log grows. -/
def monitorCycle (name ip : String) (st : MonitorState) (probe : Option Bool)
    (ts : Nat) : MonitorState :=
  match probe with
  | none => { st with error_count := st.error_count + 1 }
  | some lost =>
    let status : Nat := if lost then 0 else 1
    if lost && !st.is_down then
      finishCycle name ip
        { st with is_down := true, current_downtime_start := some ts }
        lost status ts
    else if !lost && st.is_down then
      match st.downtime_summary with
      | none =>
        { st with is_down := false, error_count := st.error_count + 1 }
      | some l =>
        finishCycle name ip
          { st with
            is_down := false
            downtime_summary := some (l ++ [(st.current_downtime_start.getD 0, ts)])
            current_downtime_start := none }
          lost status ts
    else
      finishCycle name ip st lost status ts

/-- Run the monitor loop over a list of probe outcomes with their
timestamps. -/
def runMonitor (name ip : String) (st : MonitorState)
    (probes : List (Option Bool × Nat)) : MonitorState :=
  probes.foldl (fun s p => monitorCycle name ip s p.1 p.2) st

/-- One registered device of `NetMonitorApp`: its ip and name, whether its
own monitoring thread flag `is_monitoring` is set, and its monitoring
state. -/
structure DeviceRec where
  ip : String
  name : String
  is_monitoring : Bool
  state : MonitorState
deriving DecidableEq

/-- The application-level state of `NetMonitorApp` used by the claims:
`monitors` (line 61), the `settings['devices']` mapping (line 71, an
insertion-ordered association list like a Python dict), the global flags
`timer_running`/`start_time`/`last_save_time` (lines 66-68), and a count of
log files written by `_save_log`. -/
structure AppState where
  monitors : List DeviceRec
  devices : List (String × String)
  timer_running : Bool
  start_time : Option Nat
  last_save_time : Option Nat
  save_count : Nat
deriving DecidableEq

/-- `NetMonitorApp._add_device` (lines 193-213).  The two dialog answers are
modelled as `Option String` (`none` = cancelled).  Line 196,
`if not ip or ip in self.settings['devices']: return`, rejects an empty or
already-registered ip before anything is mutated; line 199 likewise rejects
an empty name.  Otherwise a new `DeviceMonitor` is created and appended, the
settings mapping gains the pair, and the monitor is started iff
`timer_running` (lines 208-213). -/
def addDevice (app : AppState) (ipAns nameAns : Option String) : AppState :=
  match ipAns with
  | none => app
  | some ip =>
    if ip = "" ∨ (List.lookup ip app.devices).isSome then app
    else
      match nameAns with
      | none => app
      | some name =>
        if name = "" then app
        else
          { app with
            monitors := app.monitors ++
              [{ ip := ip, name := name, is_monitoring := app.timer_running
                 state := initMonitor }]
            devices := app.devices ++ [(ip, name)] }

/-- `DeviceMonitor.reset` (lines 372-376): clears the availability history
and puts the loss label back to 0%; nothing else is touched. -/
def DeviceMonitor_reset (m : MonitorState) : MonitorState :=
  { m with availability := [], lossLabel := 0 }

/-- `NetMonitorApp._reset_all` (lines 184-190): calls `reset` on every
monitor, clears `start_time`, clears the `timer_running` flag and resets the
timer label.  It does not touch the per-device `is_monitoring` flags, the
downtime state, or the save bookkeeping. -/
def resetAll (app : AppState) : AppState :=
  { app with
    monitors := app.monitors.map fun d => { d with state := DeviceMonitor_reset d.state }
    start_time := none
    timer_running := false }

/-- `AUTO_SAVE_INTERVAL` (line 16). -/
def AUTO_SAVE_INTERVAL : Nat := 86400

/-- One firing of the `job` closure of `NetMonitorApp._schedule_auto_save`
(lines 283-285) at time `now`, with the successful path of `_save_log`
(lines 266-273): if monitoring is active and at least `AUTO_SAVE_INTERVAL`
seconds have elapsed since `last_save_time`, one log file is written and
`last_save_time` becomes `now`; otherwise nothing happens (the rescheduling
of the timer itself carries no state the claims mention). -/
def autoSaveTick (app : AppState) (now : Nat) : AppState :=
  match app.last_save_time with
  | none => app
  | some t =>
    if app.timer_running = true ∧ AUTO_SAVE_INTERVAL ≤ now - t then
      { app with save_count := app.save_count + 1, last_save_time := some now }
    else app

/-- `DeviceMonitor.get_downtime_summary` (lines 434-442): one line per pair
of `getattr(self, 'downtime_summary', [])`, plus one "по наст. время"
(ongoing) line when `self.is_down and self.current_downtime_start`.
`strftime` rendering of the timestamps is modelled by `toString`. -/
def get_downtime_summary (name : String) (m : MonitorState) : List String :=
  ((m.downtime_summary.getD []).map fun p =>
    "С " ++ (toString p.1 ++ (" по " ++ (toString p.2 ++ (": " ++ name)))))
  ++ (if m.is_down && m.current_downtime_start.isSome then
        ["С " ++ (toString (m.current_downtime_start.getD 0) ++ (" по наст. время: " ++ name))]
      else [])

/-- Line 300 of `NetMonitorApp._show_summary`:
`lines = sum((m.get_downtime_summary() for m in self.monitors), [])`. -/
def summaryLines (ms : List (String × MonitorState)) : List String :=
  (ms.map fun nm => get_downtime_summary nm.1 nm.2).flatten

/-- Line 303: `'\n'.join(lines) or self.lang.get('no_issues','Нет неполадок')`
— the joined text, or the placeholder when the join is the empty (falsy)
string. -/
def showSummary (ms : List (String × MonitorState)) : String :=
  if String.intercalate "\n" (summaryLines ms) = "" then "Нет неполадок"
  else String.intercalate "\n" (summaryLines ms)

/-- Lines 401-402 of `DeviceMonitor._monitor`:
`with self.app.log_lock: self.app.full_log.extend(entry)` — one atomic
extension of the shared log by one batch.  A concurrent execution of the
lock-protected extends is modelled by folding the batches in whatever order
the lock serialized them. -/
def appendBatch (log batch : List LogEntry) : List LogEntry :=
  log ++ batch

/-- The probe trace of the claim-C1 scenario: success, fail, fail, success,
at times 1, 2, 3, 4. -/
def c1Probes : List (Option Bool × Nat) :=
  [(some false, 1), (some true, 2), (some true, 3), (some false, 4)]

/-- A concrete application state with one registered device, used to
instantiate claim theorems. -/
def sampleApp : AppState :=
  { monitors := []
    devices := [("10.0.0.1", "router")]
    timer_running := true
    start_time := some 0
    last_save_time := some 0
    save_count := 0 }

/-- Concrete log entries used to instantiate the log-aggregation claim. -/
def entryA : LogEntry := ⟨"Ответ получен\n", none⟩

/-- Second concrete log entry. -/
def entryB : LogEntry := ⟨"Ответ не получен\n", some "error"⟩

/- ### Helper lemmas -/

lemma pushSample_of_lt {buf : List Nat} (x : Nat) (h : buf.length < 720) :
    pushSample buf x = buf ++ [x] := by
  have hc : ¬ ((buf ++ [x]).length > 720) := by
    simp only [List.length_append, List.length_cons, List.length_nil]
    omega
  show (if (buf ++ [x]).length > 720 then (buf ++ [x]).drop 1 else buf ++ [x])
      = buf ++ [x]
  rw [if_neg hc]

lemma pushSample_of_ge {buf : List Nat} (x : Nat) (h : 720 ≤ buf.length) :
    pushSample buf x = (buf ++ [x]).drop 1 := by
  have hc : (buf ++ [x]).length > 720 := by
    simp only [List.length_append, List.length_cons, List.length_nil]
    omega
  show (if (buf ++ [x]).length > 720 then (buf ++ [x]).drop 1 else buf ++ [x])
      = (buf ++ [x]).drop 1
  rw [if_pos hc]

lemma foldl_pushSample :
    ∀ (samples buf : List Nat), buf.length ≤ 720 →
      samples.foldl pushSample buf =
        (buf ++ samples).drop ((buf ++ samples).length - 720) := by
  intro samples
  induction samples with
  | nil =>
    intro buf h
    simp only [List.foldl_nil, List.append_nil]
    have h0 : buf.length - 720 = 0 := by omega
    rw [h0, List.drop_zero]
  | cons x s ih =>
    intro buf h
    rw [List.foldl_cons]
    rcases Nat.lt_or_ge buf.length 720 with hlt | hge
    · rw [pushSample_of_lt x hlt,
        ih (buf ++ [x]) (by
          simp only [List.length_append, List.length_cons, List.length_nil]
          omega),
        List.append_assoc, List.singleton_append]
    · have h720 : buf.length = 720 := le_antisymm h hge
      rw [pushSample_of_ge x hge]
      have hlen : ((buf ++ [x]).drop 1).length ≤ 720 := by
        simp only [List.length_drop, List.length_append, List.length_cons,
          List.length_nil]
        omega
      rw [ih _ hlen]
      have hsplit : (buf ++ [x]).drop 1 ++ s = (buf ++ x :: s).drop 1 := by
        rw [List.append_cons buf x s]
        exact (List.drop_append_of_le_length (by simp)).symm
      rw [hsplit, List.drop_drop]
      have hidx : 1 + (((buf ++ x :: s).drop 1).length - 720)
          = (buf ++ x :: s).length - 720 := by
        simp only [List.length_drop, List.length_append, List.length_cons]
        omega
      rw [hidx]

lemma pushSample_ne_nil (buf : List Nat) (x : Nat) : pushSample buf x ≠ [] := by
  have hpos : 0 < (pushSample buf x).length := by
    rcases Nat.lt_or_ge buf.length 720 with hlt | hge
    · rw [pushSample_of_lt x hlt]; simp
    · rw [pushSample_of_ge x hge]
      simp only [List.length_drop, List.length_append, List.length_cons,
        List.length_nil]
      omega
  exact List.length_pos.mp hpos

lemma finishCycle_lossLabel (name ip : String) (st : MonitorState) (lost : Bool)
    (status ts : Nat) :
    (finishCycle name ip st lost status ts).lossLabel
      = lossDisplay (finishCycle name ip st lost status ts).availability := by
  simp [finishCycle, lossDisplay, pushSample_ne_nil]

lemma lossLabel_cycle (name ip : String) (st : MonitorState) (probe : Option Bool)
    (ts : Nat) (h : st.lossLabel = lossDisplay st.availability) :
    (monitorCycle name ip st probe ts).lossLabel
      = lossDisplay (monitorCycle name ip st probe ts).availability := by
  cases probe with
  | none => simpa [monitorCycle] using h
  | some lost =>
    simp only [monitorCycle]
    split
    · exact finishCycle_lossLabel ..
    · split
      · cases hds : st.downtime_summary with
        | none => simpa using h
        | some l => exact finishCycle_lossLabel ..
      · exact finishCycle_lossLabel ..

lemma lossLabel_run (name ip : String) (probes : List (Option Bool × Nat)) :
    ∀ st : MonitorState, st.lossLabel = lossDisplay st.availability →
      (runMonitor name ip st probes).lossLabel
        = lossDisplay (runMonitor name ip st probes).availability := by
  induction probes with
  | nil => intro st h; exact h
  | cons p rest ih =>
    intro st h
    exact ih (monitorCycle name ip st p.1 p.2) (lossLabel_cycle name ip st p.1 p.2 h)

lemma foldl_appendBatch (order : List (List LogEntry)) :
    ∀ acc : List LogEntry, order.foldl appendBatch acc = acc ++ order.flatten := by
  induction order with
  | nil => intro acc; simp [appendBatch]
  | cons b L ih => intro acc; simp [appendBatch, ih, List.append_assoc]

lemma mem_flatten_decomp {α : Type} {b : List α} :
    ∀ {L : List (List α)}, b ∈ L → ∃ pre post, pre ++ (b ++ post) = L.flatten := by
  intro L hb
  induction L with
  | nil => cases hb
  | cons x L ih =>
    rcases List.mem_cons.mp hb with rfl | hmem
    · exact ⟨[], L.flatten, by simp⟩
    · obtain ⟨pre, post, hp⟩ := ih hmem
      exact ⟨x ++ pre, post, by simp [← hp, List.append_assoc]⟩

/-- The downtime-state invariant of one monitor at a time bound `t`: the
completed-interval list exists, its intervals are strictly ordered and
non-overlapping (`a.2 < b.1` for any earlier `a` and later `b`), each
interval starts before it ends and ended by time `t`, the down flag agrees
with the presence of the open-interval marker, and the open interval (if
any) started by `t` and after every completed interval. -/
def DowntimeInv (m : MonitorState) (t : Nat) : Prop :=
  ∃ l, m.downtime_summary = some l ∧
    l.Pairwise (fun a b => a.2 < b.1) ∧
    (∀ p ∈ l, p.1 < p.2 ∧ p.2 ≤ t) ∧
    m.is_down = m.current_downtime_start.isSome ∧
    ∀ s, m.current_downtime_start = some s → s ≤ t ∧ ∀ p ∈ l, p.2 < s

lemma downtimeInv_cycle {m : MonitorState} {t t' : Nat} (name ip : String)
    (probe : Option Bool) (hInv : DowntimeInv m t) (hlt : t < t') :
    DowntimeInv (monitorCycle name ip m probe t') t' := by
  obtain ⟨l, hds, hpw, hb, hiff, hopen⟩ := hInv
  have hrelax : ∀ p ∈ l, p.1 < p.2 ∧ p.2 ≤ t' :=
    fun p hp => ⟨(hb p hp).1, (hb p hp).2.trans hlt.le⟩
  have hopen' : ∀ s, m.current_downtime_start = some s →
      s ≤ t' ∧ ∀ p ∈ l, p.2 < s :=
    fun s hs => ⟨((hopen s hs).1).trans hlt.le, (hopen s hs).2⟩
  cases probe with
  | none => exact ⟨l, hds, hpw, hrelax, hiff, hopen'⟩
  | some lost =>
    cases lost with
    | true =>
      cases hd : m.is_down with
      | false =>
        simp only [monitorCycle, hd, Bool.not_false, Bool.and_true, if_true]
        refine ⟨l, hds, hpw, hrelax, rfl, ?_⟩
        intro s hs
        injection hs with hs'
        subst hs'
        exact ⟨le_refl _, fun p hp => lt_of_le_of_lt (hb p hp).2 hlt⟩
      | true =>
        simp only [monitorCycle, hd, Bool.not_true, Bool.and_false,
          Bool.false_and, if_false]
        exact ⟨l, hds, hpw, hrelax, hiff, hopen'⟩
    | false =>
      cases hd : m.is_down with
      | true =>
        have hsome : m.current_downtime_start.isSome = true := by
          rw [← hiff, hd]
        obtain ⟨s0, hs0⟩ := Option.isSome_iff_exists.mp hsome
        have hs0' := hopen s0 hs0
        simp only [monitorCycle, hd, hds, hs0]
        simp only [Bool.false_and, Bool.not_true, Bool.not_false, Bool.true_and,
          Bool.and_false, Bool.and_true, Bool.false_eq_true, Bool.true_eq_false,
          if_false, if_true, ite_true, ite_false, Option.getD_some]
        refine ⟨l ++ [(s0, t')], rfl, ?_, ?_, rfl, ?_⟩
        · refine List.pairwise_append.mpr ⟨hpw, List.pairwise_singleton _ _, ?_⟩
          intro a ha b hbmem
          rcases List.mem_singleton.mp hbmem with rfl
          exact hs0'.2 a ha
        · intro p hp
          rcases List.mem_append.mp hp with hp | hp
          · exact hrelax p hp
          · rcases List.mem_singleton.mp hp with rfl
            exact ⟨lt_of_le_of_lt hs0'.1 hlt, le_refl _⟩
        · intro s hs
          exact Option.noConfusion hs
      | false =>
        simp only [monitorCycle, hd, Bool.not_false, Bool.and_false,
          Bool.false_and, Bool.and_true, if_false]
        exact ⟨l, hds, hpw, hrelax, hiff, hopen'⟩

lemma downtimeInv_run (name ip : String) :
    ∀ (probes : List (Option Bool × Nat)) (m : MonitorState) (t : Nat),
      DowntimeInv m t → List.Chain (· < ·) t (probes.map Prod.snd) →
      ∃ t', DowntimeInv (runMonitor name ip m probes) t' := by
  intro probes
  induction probes with
  | nil => intro m t hInv _; exact ⟨t, hInv⟩
  | cons p rest ih =>
    intro m t hInv hch
    rcases hch with _ | ⟨hlt, hch'⟩
    exact ih (monitorCycle name ip m p.1 p.2) p.2
      (downtimeInv_cycle name ip p.1 hInv hlt) hch'

/- ### Claim theorems -/

/-- C1 (code_bug evaluation).  Scenario success, fail, fail, success at times
1..4: because `DeviceMonitor.__init__` never creates `downtime_summary`, the
close at line 394 raises `AttributeError` on the final successful probe, so
the device ends with NO completed interval recorded (`downtime_summary` still
absent, one error logged, the open marker never cleared, and the 4th sample
never appended), while the same transition system with the list initialized —
what the spec describes — records exactly `[(2, 4)]`. -/
theorem claim1_close_never_records_interval :
    (runMonitor "A" "10.0.0.1" initMonitor c1Probes).downtime_summary = none ∧
    (runMonitor "A" "10.0.0.1" initMonitor c1Probes).downtime_summary.getD [] = [] ∧
    (runMonitor "A" "10.0.0.1" initMonitor c1Probes).error_count = 1 ∧
    (runMonitor "A" "10.0.0.1" initMonitor c1Probes).is_down = false ∧
    (runMonitor "A" "10.0.0.1" initMonitor c1Probes).current_downtime_start = some 2 ∧
    (runMonitor "A" "10.0.0.1" initMonitor c1Probes).availability = [1, 0, 0] ∧
    (runMonitor "A" "10.0.0.1" initMonitorIntended c1Probes).downtime_summary
      = some [(2, 4)] :=
  ⟨rfl, rfl, rfl, rfl, rfl, rfl, rfl⟩

/-- C2.  For every sequence of samples appended by the monitor loop
(lines 407-409), the availability buffer has length `min n 720` (hence at
most 720) and its content is exactly the last `min n 720` samples in arrival
order — the oldest are the ones evicted. -/
theorem claim2_buffer_capacity_fifo (samples : List Nat) :
    (samples.foldl pushSample []).length = min samples.length 720 ∧
    samples.foldl pushSample [] = samples.drop (samples.length - 720) := by
  have h := foldl_pushSample samples [] (by simp)
  simp only [List.nil_append] at h
  refine ⟨?_, h⟩
  rw [h, List.length_drop]
  omega

/-- C5.  `_add_device` with an already-registered ip returns at line 197
before any mutation: the whole application state — monitor list, settings
mapping, flags — is literally unchanged, so no `DeviceMonitor` is created or
started. -/
theorem claim5_duplicate_add_rejected (app : AppState) (ip : String)
    (nameAns : Option String) (h : (List.lookup ip app.devices).isSome = true) :
    addDevice app (some ip) nameAns = app := by
  simp [addDevice, h]

/-- Witness for C5 at a concrete duplicate add. -/
theorem claim5_witness :
    (List.lookup "10.0.0.1" sampleApp.devices).isSome = true ∧
    addDevice sampleApp (some "10.0.0.1") (some "dup") = sampleApp :=
  ⟨rfl, claim5_duplicate_add_rejected sampleApp "10.0.0.1" (some "dup") rfl⟩

/-- C6.  `_reset_all` empties every monitor's availability buffer and puts
its loss display back to 0, clears the global elapsed timer
(`start_time := none`) and the monitoring-active flag (`timer_running :=
false`), while every device's completed downtime history, down flag, open
marker and thread flag — and the settings and save bookkeeping — are left
unchanged. -/
theorem claim6_reset_all_frame (app : AppState) :
    (resetAll app).timer_running = false ∧
    (resetAll app).start_time = none ∧
    (resetAll app).monitors.map (fun d => d.state.availability)
      = app.monitors.map (fun _ => []) ∧
    (resetAll app).monitors.map (fun d => d.state.lossLabel)
      = app.monitors.map (fun _ => (0 : Rat)) ∧
    (resetAll app).monitors.map (fun d => d.state.downtime_summary)
      = app.monitors.map (fun d => d.state.downtime_summary) ∧
    (resetAll app).monitors.map (fun d => d.state.is_down)
      = app.monitors.map (fun d => d.state.is_down) ∧
    (resetAll app).monitors.map (fun d => d.state.current_downtime_start)
      = app.monitors.map (fun d => d.state.current_downtime_start) ∧
    (resetAll app).monitors.map (fun d => d.is_monitoring)
      = app.monitors.map (fun d => d.is_monitoring) ∧
    (resetAll app).devices = app.devices ∧
    (resetAll app).save_count = app.save_count := by
  refine ⟨rfl, rfl, ?_, ?_, ?_, ?_, ?_, ?_, rfl, rfl⟩ <;>
    (simp only [resetAll, List.map_map]; rfl)

/-- C7.  One firing of the auto-save job (lines 283-285): when less than
`AUTO_SAVE_INTERVAL` seconds have elapsed since the last save nothing
happens; when monitoring is active and at least the interval has elapsed,
exactly one save occurs and the elapsed-since-last-save origin resets to
`now`. -/
theorem claim7_auto_save_tick (app : AppState) (now t : Nat)
    (h : app.last_save_time = some t) :
    (now - t < AUTO_SAVE_INTERVAL → autoSaveTick app now = app) ∧
    (app.timer_running = true → AUTO_SAVE_INTERVAL ≤ now - t →
      (autoSaveTick app now).save_count = app.save_count + 1 ∧
      (autoSaveTick app now).last_save_time = some now) := by
  constructor
  · intro hlt
    simp only [autoSaveTick, h]
    rw [if_neg]
    rintro ⟨-, hge⟩
    exact absurd hge (Nat.not_le.mpr hlt)
  · intro htr hge
    simp only [autoSaveTick, h]
    rw [if_pos ⟨htr, hge⟩]
    exact ⟨rfl, rfl⟩

/-- Witness for C7: with the last save at time 0 and a tick at time 86400
while monitoring is active, exactly one save occurs and the origin resets. -/
theorem claim7_witness :
    sampleApp.last_save_time = some 0 ∧
    (autoSaveTick sampleApp 86400).save_count = sampleApp.save_count + 1 ∧
    (autoSaveTick sampleApp 86400).last_save_time = some 86400 :=
  ⟨rfl, (claim7_auto_save_tick sampleApp 86400 0 rfl).2 rfl (by decide)⟩

/-- C8.  A cycle in which executing the probe itself fails (the
`subprocess.run` call raises, modelled by `probe = none`): the exception is
caught at line 414 and logged to the error channel, no sample is appended,
the host is marked neither up nor down, the shared log is untouched, and the
loop goes on to process the remaining probes. -/
theorem claim8_probe_failure_isolated (name ip : String) (st : MonitorState)
    (ts : Nat) (rest : List (Option Bool × Nat)) :
    (monitorCycle name ip st none ts).availability = st.availability ∧
    (monitorCycle name ip st none ts).is_down = st.is_down ∧
    (monitorCycle name ip st none ts).current_downtime_start
      = st.current_downtime_start ∧
    (monitorCycle name ip st none ts).downtime_summary = st.downtime_summary ∧
    (monitorCycle name ip st none ts).full_log = st.full_log ∧
    (monitorCycle name ip st none ts).error_count = st.error_count + 1 ∧
    runMonitor name ip st ((none, ts) :: rest)
      = runMonitor name ip (monitorCycle name ip st none ts) rest :=
  ⟨rfl, rfl, rfl, rfl, rfl, rfl, rfl⟩

/-- C10.  Whatever order the lock serializes the per-probe batch extends in
(lines 401-402), the resulting shared log is a permutation of the
concatenation of all batches — exactly the union of all appended entries —
and every batch occurs contiguously inside it, with no other batch's entries
interleaved. -/
theorem claim10_log_batches_atomic (batches order : List (List LogEntry))
    (h : List.Perm order batches) :
    List.Perm (order.foldl appendBatch []) batches.flatten ∧
    ∀ b ∈ batches, ∃ pre post, pre ++ (b ++ post) = order.foldl appendBatch [] := by
  rw [foldl_appendBatch order [], List.nil_append]
  exact ⟨h.flatten, fun b hb => mem_flatten_decomp (h.mem_iff.mpr hb)⟩

/-- Witness for C10: two devices' one-entry batches serialized in the
opposite order. -/
theorem claim10_witness :
    List.Perm [[entryB], [entryA]] [[entryA], [entryB]] ∧
    (List.Perm ([[entryB], [entryA]].foldl appendBatch [])
        [[entryA], [entryB]].flatten ∧
      ∀ b ∈ [[entryA], [entryB]], ∃ pre post,
        pre ++ (b ++ post) = [[entryB], [entryA]].foldl appendBatch []) :=
  ⟨List.Perm.swap [entryA] [entryB] [],
   claim10_log_batches_atomic [[entryA], [entryB]] [[entryB], [entryA]]
     (List.Perm.swap [entryA] [entryB] [])⟩

/-- C4.  The displayed loss percentage is an invariant of the monitor loop:
after any sequence of probe cycles the label shows exactly
`(1 - sum(buffer)/len(buffer)) * 100` rounded to 2 decimals over the current
buffer; on the concrete buffers, `[1,0,1,1]` shows 25, `[0,0,0,0]` shows
100, and the empty buffer shows 0. -/
theorem claim4_loss_percentage :
    (∀ (name ip : String) (probes : List (Option Bool × Nat)),
      (runMonitor name ip initMonitor probes).lossLabel
        = lossDisplay (runMonitor name ip initMonitor probes).availability) ∧
    lossDisplay [1, 0, 1, 1] = 25 ∧
    lossDisplay [0, 0, 0, 0] = 100 ∧
    lossDisplay [] = 0 := by
  refine ⟨fun name ip probes => lossLabel_run name ip probes initMonitor rfl,
    ?_, ?_, rfl⟩
  · have h : loss_pct [1, 0, 1, 1] * 100 = ((2500 : Nat) : Rat) := by
      simp [loss_pct]; norm_num
    simp only [lossDisplay, format2, h, round_natCast,
      if_neg (List.cons_ne_nil 1 [0, 1, 1])]
    norm_num
  · have h : loss_pct [0, 0, 0, 0] * 100 = ((10000 : Nat) : Rat) := by
      simp [loss_pct]; norm_num
    simp only [lossDisplay, format2, h, round_natCast,
      if_neg (List.cons_ne_nil 0 [0, 0, 0])]
    norm_num

/-- C3.  The downtime state machine of lines 389-395, run from the state in
which the completed-interval list is present and empty (the reading
`getattr(self, 'downtime_summary', [])` of line 437 gives the absent
attribute; initialization itself is the subject of C1): for every probe
trace with strictly increasing timestamps, the recorded intervals are
pairwise non-overlapping and strictly ordered by start time (each interval
ends strictly before the next starts), every interval was opened before it
closed (`p.1 < p.2`), and the down flag agrees with the single open-interval
marker — the state holds one `Option` marker, so at most one interval is
open at a time, and a close can only fire from the marked-down state. -/
theorem claim3_downtime_intervals_invariant (name ip : String)
    (probes : List (Option Bool × Nat))
    (hts : List.Chain (· < ·) 0 (probes.map Prod.snd)) :
    ∃ l, (runMonitor name ip initMonitorIntended probes).downtime_summary = some l ∧
      l.Pairwise (fun a b => a.2 < b.1) ∧
      (∀ p ∈ l, p.1 < p.2) ∧
      (runMonitor name ip initMonitorIntended probes).is_down
        = (runMonitor name ip initMonitorIntended probes).current_downtime_start.isSome := by
  have h0 : DowntimeInv initMonitorIntended 0 := by
    refine ⟨[], rfl, List.Pairwise.nil, ?_, rfl, ?_⟩
    · intro p hp
      cases hp
    · intro s hs
      exact Option.noConfusion hs
  obtain ⟨t', l, hds, hpw, hb, hiff, -⟩ :=
    downtimeInv_run name ip probes initMonitorIntended 0 h0 hts
  exact ⟨l, hds, hpw, fun p hp => (hb p hp).1, hiff⟩

/-- Witness for C3 on the concrete trace fail-then-success at times 1, 2. -/
theorem claim3_witness :
    List.Chain (· < ·) 0 ([(some true, 1), (some false, 2)].map Prod.snd) ∧
    ∃ l, (runMonitor "A" "10.0.0.1" initMonitorIntended
        [(some true, 1), (some false, 2)]).downtime_summary = some l ∧
      l.Pairwise (fun a b => a.2 < b.1) ∧
      (∀ p ∈ l, p.1 < p.2) ∧
      (runMonitor "A" "10.0.0.1" initMonitorIntended
          [(some true, 1), (some false, 2)]).is_down
        = (runMonitor "A" "10.0.0.1" initMonitorIntended
            [(some true, 1), (some false, 2)]).current_downtime_start.isSome :=
  ⟨List.Chain.cons (by omega) (List.Chain.cons (by omega) List.Chain.nil),
   claim3_downtime_intervals_invariant "A" "10.0.0.1"
     [(some true, 1), (some false, 2)]
     (List.Chain.cons (by omega) (List.Chain.cons (by omega) List.Chain.nil))⟩

/- ### Summary lemmas (C9) -/

lemma get_downtime_summary_forms (name : String) (m : MonitorState) :
    ∀ line ∈ get_downtime_summary name m, ∃ r, line = "С " ++ r := by
  intro line hl
  rcases List.mem_append.mp hl with h | h
  · obtain ⟨p, hp, rfl⟩ := List.mem_map.mp h
    exact ⟨_, rfl⟩
  · by_cases hc : (m.is_down && m.current_downtime_start.isSome) = true
    · rw [if_pos hc] at h
      rcases List.mem_singleton.mp h with rfl
      exact ⟨_, rfl⟩
    · rw [if_neg hc] at h
      cases h

lemma summaryLines_forms (ms : List (String × MonitorState)) :
    ∀ line ∈ summaryLines ms, ∃ r, line = "С " ++ r := by
  intro line hl
  obtain ⟨l, hlmem, hline⟩ := List.mem_flatten.mp hl
  obtain ⟨nm, _, rfl⟩ := List.mem_map.mp hlmem
  exact get_downtime_summary_forms nm.1 nm.2 line hline

lemma intercalate_go_length (sep : String) :
    ∀ (xs : List String) (acc : String),
      acc.length ≤ (String.intercalate.go acc sep xs).length := by
  intro xs
  induction xs with
  | nil => intro acc; exact le_refl _
  | cons a as ih =>
    intro acc
    calc acc.length ≤ (acc ++ sep ++ a).length := by
          simp only [String.length_append]
          omega
      _ ≤ _ := ih (acc ++ sep ++ a)

lemma intercalate_ne_empty (x : String) (rest : List String) (r : String)
    (hx : x = "С " ++ r) :
    String.intercalate "\n" (x :: rest) ≠ "" := by
  have h1 : x.length ≤ (String.intercalate "\n" (x :: rest)).length :=
    intercalate_go_length "\n" rest x
  intro hempty
  rw [hempty] at h1
  have hxlen : x.length = 2 + r.length := by
    rw [hx, String.length_append]
    rfl
  have h0 : ("" : String).length = 0 := rfl
  omega

/-- The reachable-state fact backing the "currently down" phrasing: whenever
the down flag is set, the open-interval marker is present. -/
def DownMarker (m : MonitorState) : Prop :=
  m.is_down = true → m.current_downtime_start.isSome = true

lemma downMarker_cycle (name ip : String) (st : MonitorState)
    (probe : Option Bool) (ts : Nat) (h : DownMarker st) :
    DownMarker (monitorCycle name ip st probe ts) := by
  obtain ⟨av, down, start, ds, label, log, ec⟩ := st
  cases probe with
  | none => exact h
  | some lost =>
    cases lost with
    | true =>
      cases down with
      | false => exact fun _ => rfl
      | true => exact h
    | false =>
      cases down with
      | true =>
        cases ds with
        | none => exact fun hc => Bool.noConfusion hc
        | some l => exact fun hc => Bool.noConfusion hc
      | false => exact fun hc => Bool.noConfusion hc

lemma downMarker_run (name ip : String) (probes : List (Option Bool × Nat)) :
    ∀ st : MonitorState, DownMarker st → DownMarker (runMonitor name ip st probes) := by
  induction probes with
  | nil => intro st h; exact h
  | cons p rest ih =>
    intro st h
    exact ih (monitorCycle name ip st p.1 p.2) (downMarker_cycle name ip st p.1 p.2 h)

/-- C9.  The summary is a pure derivation from monitor state: each monitor
contributes exactly one line per completed downtime interval plus one
ongoing line when it is currently down (in every reachable state the down
flag comes with the open marker, last conjunct); when no monitor has any
line the single "Нет неполадок" placeholder is shown, and otherwise the
joined lines themselves are. -/
theorem claim9_summary_emission (ms : List (String × MonitorState)) :
    (∀ nm ∈ ms, (get_downtime_summary nm.1 nm.2).length
        = (nm.2.downtime_summary.getD []).length
          + (if nm.2.is_down && nm.2.current_downtime_start.isSome then 1 else 0)) ∧
    (summaryLines ms = [] → showSummary ms = "Нет неполадок") ∧
    (∀ x rest, summaryLines ms = x :: rest →
      showSummary ms = String.intercalate "\n" (summaryLines ms)) ∧
    (∀ (name ip : String) (probes : List (Option Bool × Nat)),
      DownMarker (runMonitor name ip initMonitor probes) ∧
      DownMarker (runMonitor name ip initMonitorIntended probes)) := by
  refine ⟨?_, ?_, ?_, ?_⟩
  · intro nm _
    by_cases hc : (nm.2.is_down && nm.2.current_downtime_start.isSome) = true <;>
      simp [get_downtime_summary, hc]
  · intro h
    simp [showSummary, h, String.intercalate]
  · intro x rest hx
    obtain ⟨r, hr⟩ := summaryLines_forms ms x (hx ▸ List.mem_cons_self x rest)
    have hne : String.intercalate "\n" (summaryLines ms) ≠ "" := by
      rw [hx]
      exact intercalate_ne_empty x rest r hr
    simp only [showSummary]
    rw [if_neg hne]
  · intro name ip probes
    constructor
    · exact downMarker_run name ip probes initMonitor (by intro h; cases h)
    · exact downMarker_run name ip probes initMonitorIntended (by intro h; cases h)

/-- Witness for C9: with no monitors there are no lines and the placeholder
is emitted. -/
theorem claim9_witness : showSummary [] = "Нет неполадок" :=
  (claim9_summary_emission []).2.1 rfl

end NetMonitor
